import Mathlib

/-
Verification of the puzzles web service (Go) against its specification.

The development shallowly embeds the request-handling pipeline of the
service: `getResults` (validation plus response building), the
`/anagram` and `/match` handlers (which load the word list per request
and delegate to `getResults`), the template reload path
(`reloadTemplates`, built on `template.Must`, which panics on a parse
error), the watcher setup (`templateChanges`), the startup sequence of
`main`, the graceful-shutdown branch of `main`, and the access-log
wrapper (`requestLogger`).

Conventions of the embedding:
- Go byte strings are Lean `String`; `len(s)` on a Go string is the
  UTF-8 byte length, modelled by `goLen`.
- Go slices `[]string` are Lean `List String`.
- The external collaborator library (word-list loading, anagram and
  pattern-match lookups) is opaque: its outcomes are parameters of the
  embedded handlers (`Except` for the fallible load, a plain function
  for each lookup capability).
- `encoding/json` marshalling of the two fixed output structs is
  modelled byte-for-byte, including Go's default HTML-safe escaping;
  struct fields marshal under their exported Go names `Success` and
  `Result`.
- An unrecovered Go panic (as raised by `template.Must` or by
  `log.Fatalf`) terminates the process; it is modelled by the
  `MustResult.panic` constructor, and by a non-zero exit code for
  `log.Fatalf`.
-/

namespace Puzzles

/-- Go byte length of a string: the sum of the UTF-8 sizes of its
characters. This is what `len(input)` computes on a Go `string`. -/
def goLen (s : String) : Nat :=
  (s.data.map Char.utf8Size).sum

/-- HTTP 200, `http.StatusOK`. -/
def StatusOK : Nat := 200

/-- HTTP 400, `http.StatusBadRequest`. -/
def StatusBadRequest : Nat := 400

/-- HTTP 500, `http.StatusInternalServerError`. -/
def StatusInternalServerError : Nat := 500

/-- Escaping of one character inside a JSON string as performed by Go's
`encoding/json` with its default HTML-safe encoder: quote, backslash,
the HTML-significant characters and control characters are escaped,
every other character is emitted verbatim. -/
def jsonEscapeChar (c : Char) : String :=
  if c = '"' then "\\\""
  else if c = '\\' then "\\\\"
  else if c = '<' then "\\u003c"
  else if c = '>' then "\\u003e"
  else if c = '&' then "\\u0026"
  else if c = '\n' then "\\n"
  else if c = '\r' then "\\r"
  else if c = '\t' then "\\t"
  else if c.toNat < 32 then "\\u00" ++ String.singleton (Nat.digitChar (c.toNat / 16)) ++ String.singleton (Nat.digitChar (c.toNat % 16))
  else String.singleton c

/-- A JSON string literal: the escaped characters between double quotes. -/
def jsonQuote (s : String) : String :=
  "\"" ++ String.join (s.data.map jsonEscapeChar) ++ "\""

/-- A JSON array of strings. -/
def jsonArray (xs : List String) : String :=
  "[" ++ String.intercalate "," (xs.map jsonQuote) ++ "]"

/-- A JSON boolean. -/
def jsonBool (b : Bool) : String :=
  if b then "true" else "false"

/-- Go struct `OutputString \x7b Success bool; Result string \x7d`, the
envelope used for the invalid-input response. -/
structure OutputString where
  Success : Bool
  Result : String
deriving DecidableEq

/-- Go struct `OutputArray \x7b Success bool; Result []string \x7d`, the
envelope used for lookup results. -/
structure OutputArray where
  Success : Bool
  Result : List String
deriving DecidableEq

/-- `json.Marshal` of an `OutputString` value: field names are the
exported Go names. -/
def marshalOutputString (o : OutputString) : String :=
  "\x7b\"Success\":" ++ jsonBool o.Success ++ ",\"Result\":" ++ jsonQuote o.Result ++ "\x7d"

/-- `json.Marshal` of an `OutputArray` value: field names are the
exported Go names. -/
def marshalOutputArray (o : OutputArray) : String :=
  "\x7b\"Success\":" ++ jsonBool o.Success ++ ",\"Result\":" ++ jsonArray o.Result ++ "\x7d"

/-- `getResults` from the source: validate the input length, then either
answer the invalid-input envelope with HTTP 400 or run the lookup and
answer the result envelope with HTTP 200. The returned pair is
(response body bytes, status code). -/
def getResults (input : String) (function : String → List String) : String × Nat :=
  if input = "" ∨ goLen input > 13 then
    (marshalOutputString ⟨false, "Invalid input"⟩, StatusBadRequest)
  else
    let result := function input
    (marshalOutputArray ⟨decide (result.length > 0), result⟩, StatusOK)

/-- `getResults` instrumented with a call counter for the lookup
function: identical control flow, and additionally reports how many
times `function` is invoked on the taken branch (0 on the invalid
branch, 1 on the valid branch). `getResultsCount_fst` proves it agrees
with `getResults` on the response. -/
def getResultsCount (input : String) (function : String → List String) : (String × Nat) × Nat :=
  if input = "" ∨ goLen input > 13 then
    ((marshalOutputString ⟨false, "Invalid input"⟩, StatusBadRequest), 0)
  else
    let result := function input
    ((marshalOutputArray ⟨decide (result.length > 0), result⟩, StatusOK), 1)

/-- The opaque handle returned by `kowalski.LoadWords`: the two lookup
capabilities the handlers use. -/
structure Words where
  Anagrams : String → List String
  Match : String → List String

/-- One HTTP response as the handlers produce it: status code, body
bytes, and whether the JSON Content-Type header was added. -/
structure Response where
  status : Nat
  body : String
  contentTypeJSON : Bool
deriving DecidableEq

/-- Count of Word Data Provider invocations made while handling one
request: word-list loads and lookup-operation calls. -/
structure ProviderTrace where
  loads : Nat
  lookups : Nat
deriving DecidableEq

/-- Everything one handler invocation produces: the response, the
provider-invocation counts, and the operator log lines it emits. -/
structure HandlerOut where
  resp : Response
  trace : ProviderTrace
  logLines : List String

/-- The `/anagram` handler from the source. It always calls
`kowalski.LoadWords` first (so `trace.loads = 1` on every path); on a
load error it logs the cause and answers HTTP 500 with the plain body
"Unable to load wordlist" (no JSON Content-Type, no JSON envelope);
otherwise it adds the JSON Content-Type and delegates to `getResults`
with the `Anagrams` capability. The outcome of the external load call
is the `loadResult` parameter. -/
def anagramHandler (loadResult : Except String Words) (input : String) : HandlerOut :=
  match loadResult with
  | Except.error e =>
    ⟨⟨StatusInternalServerError, "Unable to load wordlist", false⟩, ⟨1, 0⟩,
      ["Unable to load words: " ++ e]⟩
  | Except.ok words =>
    let r := getResultsCount input words.Anagrams
    ⟨⟨r.1.2, r.1.1, true⟩, ⟨1, r.2⟩, []⟩

/-- The `/match` handler from the source: identical to `anagramHandler`
except that it uses the `Match` capability. -/
def matchHandler (loadResult : Except String Words) (input : String) : HandlerOut :=
  match loadResult with
  | Except.error e =>
    ⟨⟨StatusInternalServerError, "Unable to load wordlist", false⟩, ⟨1, 0⟩,
      ["Unable to load words: " ++ e]⟩
  | Except.ok words =>
    let r := getResultsCount input words.Match
    ⟨⟨r.1.2, r.1.1, true⟩, ⟨1, r.2⟩, []⟩

/-- A parsed template bundle, named by the files it was parsed from. -/
structure TemplateSet where
  files : List String
deriving DecidableEq

/-- Outcome of an operation that may raise an unrecovered Go panic:
either a value, or a panic that terminates the whole process (a panic
in any goroutine crashes the program; nothing in this code recovers). -/
inductive MustResult (α : Type) where
  | ok : α → MustResult α
  | panic : String → MustResult α
deriving DecidableEq

/-- `template.Must`: returns the template set if parsing succeeded and
panics with the parse error otherwise. -/
def templateMust (r : Except String TemplateSet) : MustResult TemplateSet :=
  match r with
  | Except.ok t => MustResult.ok t
  | Except.error e => MustResult.panic e

/-- `reloadTemplates` from the source: parse the fixed template file
set and assign the result to the global `templates` variable through
`template.Must`. `parseResult` is the outcome of the external
`template.ParseFiles` call, `old` the value of the global before the
call. On a parse error the `template.Must` panic propagates and the old
value is never restored or kept. -/
def reloadTemplates (parseResult : Except String TemplateSet) (old : Option TemplateSet) : MustResult (Option TemplateSet) :=
  match templateMust parseResult with
  | MustResult.ok t => MustResult.ok (some t)
  | MustResult.panic m => MustResult.panic m

/-- What `templateChanges` did during setup: which of its two failure
messages it logged, and whether it started the `templateReloader`
goroutine. -/
structure WatcherSetup where
  loggedUnableCreate : Bool
  loggedUnableWatch : Bool
  reloaderStarted : Bool
deriving DecidableEq

/-- `templateChanges` from the source: if `fsnotify.NewWatcher` fails,
log "Unable to create watcher" and return without starting anything; if
the watcher is created but `watcher.Add` on the template folder fails,
log "Unable to watch template folder" and fall through; in every case
where the watcher was created, start the `templateReloader` goroutine.
The outcomes of the two external calls are the parameters. -/
def templateChanges (newWatcherResult : Except String Unit) (addResult : Except String Unit) : WatcherSetup :=
  match newWatcherResult with
  | Except.error _ => ⟨true, false, false⟩
  | Except.ok _ =>
    match addResult with
    | Except.error _ => ⟨false, true, true⟩
    | Except.ok _ => ⟨false, false, true⟩

/-- The observable milestones of process startup, in the order `main`
reaches them. -/
inductive StartupStep where
  | loadWords
  | parseTemplates
  | startWatcher
  | bindListener
deriving DecidableEq

/-- The startup sequence of `main`: load the word data, parse the
initial templates through `reloadTemplates` (whose `template.Must`
panic aborts the process on a parse error), then start the watcher and
bind the listener. Returns the milestones reached in order, paired with
the panic message if startup aborted. -/
def startupTrace (parseResult : Except String TemplateSet) : List StartupStep × Option String :=
  match reloadTemplates parseResult none with
  | MustResult.panic m => ([StartupStep.loadWords, StartupStep.parseTemplates], some m)
  | MustResult.ok _ =>
    ([StartupStep.loadWords, StartupStep.parseTemplates, StartupStep.startWatcher,
      StartupStep.bindListener], none)

/-- The shutdown deadline of `main`: `context.WithTimeout(…, 5*time.Second)`. -/
def shutdownDeadlineSeconds : Nat := 5

/-- Contract of `http.Server.Shutdown` under a deadline context: nil
when the in-flight requests drain within the deadline, the context's
deadline-exceeded error otherwise. `drainSeconds` is how long draining
would take. -/
def serverShutdown (drainSeconds deadline : Nat) : Option String :=
  if drainSeconds ≤ deadline then none else some "context deadline exceeded"

/-- The shutdown branch of `main`: after the signal, call
`server.Shutdown` with the 5-second deadline; on error, `log.Fatalf`
exits with code 1; otherwise `main` returns normally and the process
exits with code 0. The result is the process exit code. -/
def mainShutdown (drainSeconds : Nat) : Nat :=
  match serverShutdown drainSeconds shutdownDeadlineSeconds with
  | none => 0
  | some _ => 1

/-- The request fields the access logger reads. -/
structure Request where
  RemoteAddr : String
  Method : String
  RequestURI : String

/-- Observable events of one wrapped request, in order: the inner
handler finishing with its response, and an access-log line. -/
inductive Event where
  | handlerDone : Response → Event
  | logLine : String → Event
deriving DecidableEq

/-- Whether an event is an access-log line. -/
def Event.isLog : Event → Bool
  | Event.handlerDone _ => false
  | Event.logLine _ => true

/-- The access-log line `requestLogger` emits: remote address, method
and request URI, tab-separated (the `log.Printf` format of the source). -/
def logFormat (r : Request) : String :=
  r.RemoteAddr ++ "\t\t" ++ r.Method ++ "\t\t" ++ r.RequestURI ++ "\t"

/-- `requestLogger` from the source: the wrapper first runs the wrapped
mux on the request, then emits one log line with the requester address,
the method and the request URI. Returns the inner response and the
ordered event trace of the wrapped request. -/
def requestLogger (targetMux : Request → Response) (r : Request) : Response × List Event :=
  let resp := targetMux r
  (resp, [Event.handlerDone resp, Event.logLine (logFormat r)])

/-- A concrete word handle used to instantiate theorems: anagram lookup
knows one pair, pattern match knows nothing. -/
def wtest : Words :=
  ⟨fun s => if s = "listen" then ["silent"] else [], fun _ => []⟩

-- Helper lemmas ------------------------------------------------------

/-- A string has Go length 0 exactly when it is empty. -/
theorem goLen_eq_zero_iff (s : String) : goLen s = 0 ↔ s = "" := by
  constructor
  · intro h
    cases s with
    | mk data =>
      cases data with
      | nil => rfl
      | cons c cs =>
        exfalso
        have hc : 0 < c.utf8Size := Char.utf8Size_pos c
        simp [goLen] at h
        omega
  · intro h
    subst h
    rfl

/-- On the valid branch, `getResultsCount` reports exactly one lookup
invocation; on the invalid branch, none. Its response component always
agrees with `getResults`. -/
theorem getResultsCount_fst (input : String) (f : String → List String) :
    (getResultsCount input f).1 = getResults input f := by
  unfold getResultsCount getResults
  by_cases h : input = "" ∨ goLen input > 13 <;> simp [h]

/-- An invalid length in the sense of the claims makes the source's
guard true. -/
theorem invalid_guard (input : String) (h : goLen input = 0 ∨ 14 ≤ goLen input) :
    (input = "" ∨ goLen input > 13) := by
  rcases h with h0 | h14
  · exact Or.inl ((goLen_eq_zero_iff input).mp h0)
  · exact Or.inr (by omega)

/-- A valid length in the sense of the claims makes the source's guard
false. -/
theorem valid_guard (input : String) (h1 : 1 ≤ goLen input) (h13 : goLen input ≤ 13) :
    ¬ (input = "" ∨ goLen input > 13) := by
  rintro (he | hg)
  · rw [← goLen_eq_zero_iff input] at he
    omega
  · omega

/-- The invalid-input JSON body is never the empty byte sequence. -/
theorem marshalOutputString_ne_empty (o : OutputString) : marshalOutputString o ≠ "" := by
  intro h
  have hd : (marshalOutputString o).data = [] := by simp [h]
  simp [marshalOutputString, String.data_append] at hd

/-- The result-array JSON body is never the empty byte sequence. -/
theorem marshalOutputArray_ne_empty (o : OutputArray) : marshalOutputArray o ≠ "" := by
  intro h
  have hd : (marshalOutputArray o).data = [] := by simp [h]
  simp [marshalOutputArray, String.data_append] at hd

-- Claims -------------------------------------------------------------

/-- C1: for every request to `/anagram` or `/match` whose input has Go
length 0 or at least 14 (and whose per-request word-list load
succeeded, so that control reaches validation at all), the handler
answers HTTP 400 with the JSON envelope whose `Success` field is false
and whose `Result` field is the string "Invalid input". -/
theorem C1_invalid_length_yields_400 (words : Words) (input : String)
    (h : goLen input = 0 ∨ 14 ≤ goLen input) :
    (anagramHandler (Except.ok words) input).resp =
      ⟨StatusBadRequest, marshalOutputString ⟨false, "Invalid input"⟩, true⟩ ∧
    (matchHandler (Except.ok words) input).resp =
      ⟨StatusBadRequest, marshalOutputString ⟨false, "Invalid input"⟩, true⟩ := by
  have hg := invalid_guard input h
  constructor <;> simp [anagramHandler, matchHandler, getResultsCount, hg]

/-- Witness for C1 at the concrete inputs "" and "abcdefghijklmn". -/
theorem C1_witness :
    (anagramHandler (Except.ok wtest) "").resp =
      ⟨StatusBadRequest, marshalOutputString ⟨false, "Invalid input"⟩, true⟩ ∧
    (matchHandler (Except.ok wtest) "abcdefghijklmn").resp =
      ⟨StatusBadRequest, marshalOutputString ⟨false, "Invalid input"⟩, true⟩ :=
  ⟨(C1_invalid_length_yields_400 wtest "" (Or.inl (by decide))).1,
   (C1_invalid_length_yields_400 wtest "abcdefghijklmn" (Or.inr (by decide))).2⟩

/-- C2: for every request to `/anagram` or `/match` whose input has Go
length between 1 and 13 (and whose word-list load succeeded), the
handler answers HTTP 200 with the JSON envelope `Success = (result is
non-empty)`, `Result = result`, where `result` is exactly what the
lookup capability returned; an empty sequence therefore yields
`Success = false` at status 200, not an error. -/
theorem C2_valid_length_yields_200 (words : Words) (input : String)
    (h1 : 1 ≤ goLen input) (h13 : goLen input ≤ 13) :
    (anagramHandler (Except.ok words) input).resp =
      ⟨StatusOK,
        marshalOutputArray ⟨decide ((words.Anagrams input).length > 0), words.Anagrams input⟩,
        true⟩ ∧
    (matchHandler (Except.ok words) input).resp =
      ⟨StatusOK,
        marshalOutputArray ⟨decide ((words.Match input).length > 0), words.Match input⟩,
        true⟩ := by
  have hg := valid_guard input h1 h13
  constructor <;> simp [anagramHandler, matchHandler, getResultsCount, hg]

/-- Witness for C2 at the concrete input "listen": the anagram lookup
yields ["silent"] with `Success = true`, the match lookup yields the
empty sequence with `Success = false`, both at status 200. -/
theorem C2_witness :
    (anagramHandler (Except.ok wtest) "listen").resp =
      ⟨StatusOK, marshalOutputArray ⟨true, ["silent"]⟩, true⟩ ∧
    (matchHandler (Except.ok wtest) "listen").resp =
      ⟨StatusOK, marshalOutputArray ⟨false, []⟩, true⟩ := by
  have h := C2_valid_length_yields_200 wtest "listen" (by decide) (by decide)
  exact ⟨by rw [h.1]; rfl, by rw [h.2]; rfl⟩

/-- C3 counterexample: on the invalid input "" (length 0), the
`/anagram` handler nonetheless performs its per-request word-list load
— the load count is 1, not 0 — because `kowalski.LoadWords` runs before
validation. This refutes the claim that neither the word-list load nor
the lookup runs for invalid inputs. -/
theorem C3_counterexample :
    (anagramHandler (Except.ok wtest) "").trace.loads = 1 := by
  rfl

/-- C3 amended: for every request to `/anagram` or `/match` whose input
has invalid length, the anagram/match lookup operation is never invoked
(lookup count 0, and the response is independent of the lookup
capability), but the per-request word-list load does run — exactly once
— before validation. -/
theorem C3_amended_lookup_not_invoked (loadResult : Except String Words) (input : String)
    (h : goLen input = 0 ∨ 14 ≤ goLen input) :
    (anagramHandler loadResult input).trace.lookups = 0 ∧
    (matchHandler loadResult input).trace.lookups = 0 ∧
    (anagramHandler loadResult input).trace.loads = 1 ∧
    (matchHandler loadResult input).trace.loads = 1 ∧
    (∀ f g : String → List String, getResults input f = getResults input g) := by
  have hg := invalid_guard input h
  refine ⟨?_, ?_, ?_, ?_, ?_⟩
  · cases loadResult <;> simp [anagramHandler, getResultsCount, hg]
  · cases loadResult <;> simp [matchHandler, getResultsCount, hg]
  · cases loadResult <;> rfl
  · cases loadResult <;> rfl
  · intro f g
    simp [getResults, hg]

/-- Witness for the amended C3 at the concrete invalid input
"abcdefghijklmn" with a successful load. -/
theorem C3_witness :
    (anagramHandler (Except.ok wtest) "abcdefghijklmn").trace.lookups = 0 ∧
    (matchHandler (Except.ok wtest) "abcdefghijklmn").trace.loads = 1 :=
  ⟨(C3_amended_lookup_not_invoked (Except.ok wtest) "abcdefghijklmn" (Or.inr (by decide))).1,
   (C3_amended_lookup_not_invoked (Except.ok wtest) "abcdefghijklmn" (Or.inr (by decide))).2.2.2.1⟩

/-- C4 counterexample: when the word-list load fails, the body the
handler writes is the plain byte string "Unable to load wordlist", not
the JSON envelope with `Success = false` and `Result = "Unable to load
wordlist"` that the claim describes, and the JSON Content-Type header
is not added. -/
theorem C4_counterexample :
    (anagramHandler (Except.error "open /app/wordlist.txt: no such file or directory") "abc").resp.body
      ≠ marshalOutputString ⟨false, "Unable to load wordlist"⟩ ∧
    (anagramHandler (Except.error "open /app/wordlist.txt: no such file or directory") "abc").resp.contentTypeJSON
      = false := by
  constructor
  · decide
  · rfl

/-- C4 amended: for every request to `/anagram` or `/match` in which
the word-list load fails, the handler answers HTTP 500 with the
plain-text body "Unable to load wordlist" (not wrapped in the JSON
envelope, and without the JSON Content-Type header), and the detailed
cause is logged at the operator level only. -/
theorem C4_amended_plain_body_500 (e : String) (input : String) :
    anagramHandler (Except.error e) input =
      ⟨⟨StatusInternalServerError, "Unable to load wordlist", false⟩, ⟨1, 0⟩,
        ["Unable to load words: " ++ e]⟩ ∧
    matchHandler (Except.error e) input =
      ⟨⟨StatusInternalServerError, "Unable to load wordlist", false⟩, ⟨1, 0⟩,
        ["Unable to load words: " ++ e]⟩ :=
  ⟨rfl, rfl⟩

/-- C5: evaluating the reload path at the failing input — a watcher
event arriving while the template files fail to parse — shows that
`template.Must` raises a panic that terminates the process; the
previously active template set is not kept: the result is
`MustResult.panic`, not `MustResult.ok` of the old set, contradicting
the claim that the service keeps serving the last-known-good templates
and only logs the failure. -/
theorem C5_reload_parse_failure_panics :
    reloadTemplates (Except.error "template: unexpected EOF") (some ⟨["main.css", "index.html", "main.js"]⟩)
      = MustResult.panic "template: unexpected EOF" ∧
    reloadTemplates (Except.error "template: unexpected EOF") (some ⟨["main.css", "index.html", "main.js"]⟩)
      ≠ MustResult.ok (some ⟨["main.css", "index.html", "main.js"]⟩) := by
  constructor
  · rfl
  · decide

/-- C6 counterexample: when the watcher is created but the template
directory cannot be watched (`watcher.Add` fails), the reloader
goroutine is still started — refuting the claim that no reload task
runs for the rest of the process lifetime in that case. -/
theorem C6_counterexample :
    (templateChanges (Except.ok ()) (Except.error "lstat ./templates: no such file or directory")).reloaderStarted
      = true := by
  rfl

/-- C6 amended: if watcher creation fails, `templateChanges` logs
"Unable to create watcher" and disables itself — no reload task starts.
If the watcher is created but the template directory cannot be watched,
the failure is logged but the reload task is still started (watching
nothing). In both cases the service continues with the templates parsed
at startup. -/
theorem C6_amended_watcher_setup (e a : String) :
    templateChanges (Except.error e) (Except.ok ()) = ⟨true, false, false⟩ ∧
    templateChanges (Except.error e) (Except.error a) = ⟨true, false, false⟩ ∧
    templateChanges (Except.ok ()) (Except.error a) = ⟨false, true, true⟩ ∧
    templateChanges (Except.ok ()) (Except.ok ()) = ⟨false, false, true⟩ :=
  ⟨rfl, rfl, rfl, rfl⟩

/-- C7: the shutdown deadline is 5 seconds; if draining finishes within
it, `server.Shutdown` returns nil and the process exits with code 0; if
the deadline is exceeded, `log.Fatalf` makes the process exit with the
non-zero code 1. -/
theorem C7_shutdown_deadline_exit_codes (drainSeconds : Nat) :
    shutdownDeadlineSeconds = 5 ∧
    (drainSeconds ≤ 5 → mainShutdown drainSeconds = 0) ∧
    (5 < drainSeconds → mainShutdown drainSeconds ≠ 0) := by
  refine ⟨rfl, ?_, ?_⟩
  · intro h
    simp [mainShutdown, serverShutdown, shutdownDeadlineSeconds, h]
  · intro h
    have hn : ¬ drainSeconds ≤ 5 := by omega
    simp [mainShutdown, serverShutdown, shutdownDeadlineSeconds, hn]

/-- Witness for C7 at drain times 3 and 7 seconds. -/
theorem C7_witness : mainShutdown 3 = 0 ∧ mainShutdown 7 ≠ 0 :=
  ⟨(C7_shutdown_deadline_exit_codes 3).2.1 (by decide),
   (C7_shutdown_deadline_exit_codes 7).2.2 (by decide)⟩

/-- C8: if the initial template parse fails at startup, `main` aborts
through the `template.Must` panic: the startup trace ends at the parse
step with the panic recorded, and neither the watcher start nor the
listener bind is ever reached. -/
theorem C8_startup_parse_failure_aborts (e : String) :
    (startupTrace (Except.error e)).2 = some e ∧
    StartupStep.bindListener ∉ (startupTrace (Except.error e)).1 ∧
    StartupStep.startWatcher ∉ (startupTrace (Except.error e)).1 := by
  refine ⟨rfl, ?_, ?_⟩ <;> simp [startupTrace, reloadTemplates, templateMust]

/-- C9: for every wrapped handler and every request — whatever its path
— the logger emits exactly one log line, it does so after the inner
handler has completed, the response is exactly the inner handler's
response, and the log line contains the client remote address, the HTTP
method and the request URI as substrings. -/
theorem C9_request_logged_once (targetMux : Request → Response) (r : Request) :
    (requestLogger targetMux r).1 = targetMux r ∧
    (requestLogger targetMux r).2 =
      [Event.handlerDone (targetMux r), Event.logLine (logFormat r)] ∧
    ((requestLogger targetMux r).2.filter Event.isLog).length = 1 ∧
    List.IsInfix r.RemoteAddr.data (logFormat r).data ∧
    List.IsInfix r.Method.data (logFormat r).data ∧
    List.IsInfix r.RequestURI.data (logFormat r).data := by
  refine ⟨rfl, rfl, rfl, ?_, ?_, ?_⟩
  · refine ⟨[], ("\t\t" ++ r.Method ++ "\t\t" ++ r.RequestURI ++ "\t").data, ?_⟩
    simp [logFormat, String.data_append]
  · refine ⟨(r.RemoteAddr ++ "\t\t").data, ("\t\t" ++ r.RequestURI ++ "\t").data, ?_⟩
    simp [logFormat, String.data_append]
  · refine ⟨(r.RemoteAddr ++ "\t\t" ++ r.Method ++ "\t\t").data, ("\t" : String).data, ?_⟩
    simp [logFormat, String.data_append]

/-- C10: `getResults` is total and deterministic: the status is exactly
400 or exactly 200 and never anything else, the body bytes are never
empty, and the output depends only on the input string and the
pointwise behaviour of the lookup function. -/
theorem C10_getResults_total_deterministic (input : String) (f g : String → List String)
    (h : ∀ x, f x = g x) :
    ((getResults input f).2 = StatusBadRequest ∨ (getResults input f).2 = StatusOK) ∧
    (getResults input f).1 ≠ "" ∧
    getResults input f = getResults input g := by
  have hfg : f = g := funext h
  subst hfg
  refine ⟨?_, ?_, rfl⟩ <;> unfold getResults <;>
    by_cases hc : input = "" ∨ goLen input > 13 <;> simp [hc]
  · exact marshalOutputString_ne_empty _
  · exact marshalOutputArray_ne_empty _

/-- Witness for C10 at the concrete input "abc" and the empty lookup. -/
theorem C10_witness :
    ((getResults "abc" (fun _ => [])).2 = StatusBadRequest ∨
      (getResults "abc" (fun _ => [])).2 = StatusOK) ∧
    (getResults "abc" (fun _ => [])).1 ≠ "" ∧
    getResults "abc" (fun _ => []) = getResults "abc" (fun _ => []) :=
  C10_getResults_total_deterministic "abc" (fun _ => []) (fun _ => []) (fun _ => rfl)

end Puzzles
